import Mathlib

/-!
# go-omniflow `rpc/json`: a shallow embedding of the RPC facade

The development embeds the Go package `rpc/json` (files `fun_demo.go`,
`jsonrpc_client.go`, `jsonrpc_server.go`) as pure Lean functions.

Modelling conventions.

* A Go function returning `error` becomes a function returning an `Outcome`
  (`ok`, `err e`, or `panic msg` for a run-time panic); a constructor returning
  `(value, error)` returns a `Built` (`ok v`, `error e`, or `panic msg`).
* Network operations are calls to an oracle record (`Net`, `ServerEnv`); every
  call made to the oracle is appended to a list of `NetEvent`s, so "no network
  activity" is the statement that this list is empty.
* Objects mutated through pointers (the reply slot, the rpc servers, the
  `RpcService` receiver) are passed and returned explicitly.
* Go `int` is the signed 64-bit integer of the 64-bit targets.
* A pointer that may be nil is an `Option`; dereferencing `none` panics.
* A call of an external function that may panic returns a `Call`.
-/

namespace Omniflow

/-! ## Go values as seen through `reflect` -/

/-- Untyped tree of data, used for the content of Go values and for what
`encoding/json` decodes into an `any`. -/
inductive JsonAny where
  | null
  | bool (b : Bool)
  | number (n : Int)
  | string (s : String)
  | array (xs : List JsonAny)
  | object (kvs : List (String × JsonAny))

namespace reflect

/-- The kinds of `reflect.Kind` (the sized integer and float kinds are grouped). -/
inductive Kind where
  | Invalid | Bool | Int | Uint | Float | Complex | Array | Chan | Func
  | Interface | Map | Pointer | Slice | String | Struct
  deriving DecidableEq, Repr

/-- Go types, as far as `Kind` and pointer element types are concerned. -/
inductive RType where
  | Bool | Int | Uint | Float | Complex | String
  | Struct (name : String)
  | Array (elem : RType)
  | Slice (elem : RType)
  | Map (key elem : RType)
  | Chan (elem : RType)
  | Func
  | Interface
  | Ptr (elem : RType)
  deriving DecidableEq, Repr

/-- Method `Kind` of `reflect.Type`. -/
def RType.Kind : RType → Kind
  | .Bool => .Bool
  | .Int => .Int
  | .Uint => .Uint
  | .Float => .Float
  | .Complex => .Complex
  | .String => .String
  | .Struct _ => .Struct
  | .Array _ => .Array
  | .Slice _ => .Slice
  | .Map _ _ => .Map
  | .Chan _ => .Chan
  | .Func => .Func
  | .Interface => .Interface
  | .Ptr _ => .Pointer

end reflect

/-- A Go value of static type `any`: either the nil interface, or a dynamic
type together with a content. For a pointer type the content is that of the
pointee, and `none` is the nil pointer. -/
inductive GoAny where
  | nil
  | dyn (typ : reflect.RType) (content : Option JsonAny)

namespace reflect

/-- A `reflect.Value`; `typ = none` is the zero Value (kind `Invalid`). -/
structure Value where
  typ : Option RType
  content : Option JsonAny

/-- Function `reflect.ValueOf`: the zero Value for the nil interface. -/
def ValueOf : GoAny → Value
  | .nil => ⟨none, none⟩
  | .dyn t c => ⟨some t, c⟩

/-- Method `Value.Kind`: `Invalid` for the zero Value. -/
def Value.Kind (v : Value) : Kind :=
  match v.typ with
  | none => .Invalid
  | some t => t.Kind

/-- Function `reflect.Indirect`: a non-pointer is returned unchanged, a pointer
is replaced by `v.Elem()`, which is the zero Value for a nil pointer. -/
def Indirect (v : Value) : Value :=
  match v.typ with
  | some (.Ptr e) =>
    match v.content with
    | some c => ⟨some e, some c⟩
    | none => ⟨none, none⟩
  | _ => v

/-- Method `Value.Type`: `none` stands for the panic
`reflect: call of reflect.Value.Type on zero Value`. -/
def Value.Type (v : Value) : Option RType := v.typ

end reflect

namespace cond

/-- Library function `cond.IsPointer` of go-plat-utils: whether the dynamic
kind of the value is `reflect.Ptr` (false for the nil interface). -/
def IsPointer (v : GoAny) : Bool :=
  decide ((reflect.ValueOf v).Kind = reflect.Kind.Pointer)

end cond

/-! ## Errors and outcomes -/

namespace multierror

/-- The aggregate `multierror.Error` of hashicorp/go-multierror. -/
structure Error where
  Errors : List String
  deriving DecidableEq, Repr

/-- Function `multierror.Append(err, e)` for a plain error `e`: a nil `err`
starts a new aggregate, otherwise `e` is added at the end. -/
def Append (err : Option Error) (e : String) : Error :=
  match err with
  | none => ⟨[e]⟩
  | some m => ⟨m.Errors ++ [e]⟩

end multierror

/-- Go `error` values produced in the package. -/
inductive GoError where
  /-- The value of `fmt.Errorf(format, args...)`. -/
  | errorf (format : String) (args : List JsonAny)
  /-- An error returned by an external call (dial, post, decode, call). -/
  | ext (e : String)
  /-- The aggregate built with `multierror.Append`. -/
  | multi (m : multierror.Error)

/-- How a call of a function with result type `error` ends. -/
inductive Outcome where
  | ok
  | err (e : GoError)
  | panic (msg : String)

/-! ## fun_demo.go -/

/-- Go `int` addition on a 64-bit target: the sum reduced to the signed range. -/
def intAdd (a b : Int) : Int := (a + b + 2 ^ 63) % 2 ^ 64 - 2 ^ 63

/-- Type `Args` of fun_demo.go. -/
structure Args where
  A : Int
  B : Int
  deriving DecidableEq, Repr

/-- Type `Result` of fun_demo.go. -/
structure Result where
  Value : Int
  deriving DecidableEq, Repr

/-- Method `Arith.Add`: the new content of `*reply` and the returned error. -/
def Arith.Add (args : Args) (_reply : Int) : Int × Option GoError :=
  (intAdd args.A args.B, none)

/-- Method `Arith.HttpAdd`: the args after the call, the new content of
`*result` and the returned error. The request is not used. -/
def Arith.HttpAdd (args : Args) (result : Result) : Args × Result × Option GoError :=
  (args, { result with Value := intAdd args.A args.B }, none)

/-! ## jsonrpc_client.go -/

namespace conn

/-- The fields of `conn.Connect` (go-plat-utils) that the package reads. -/
structure Connect where
  Host : String
  Port : String
  deriving DecidableEq, Repr

end conn

namespace net

/-- Function `net.JoinHostPort`: a host containing a colon is bracketed. -/
def JoinHostPort (host port : String) : String :=
  if host.contains ':' then "[" ++ host ++ "]:" ++ port else host ++ ":" ++ port

end net

/-- The wire codec of a tcp connection. -/
inductive Codec where
  /-- The codec of `net/rpc/jsonrpc`. -/
  | jsonrpc
  /-- The codec `codec.MsgpackSpecRpc` of ugorji/go. -/
  | msgpack
  deriving DecidableEq, Repr

/-- The request object that `execHttpClient` serialises with `conv.String`. -/
structure JSONRPCRequest where
  jsonrpc : String
  method : String
  params : List GoAny
  id : String

/-- Type `jSONRPCResponse`: `Result` is the raw text of the field, `Error` the
decoded value (`JsonAny.null` is a nil `any`: field null or absent). -/
structure jSONRPCResponse where
  JSONRPC : String
  Result : String
  Error : JsonAny
  Id : String

/-- Whether a decoded `any` is nil. -/
def JsonAny.isNil : JsonAny → Bool
  | .null => true
  | _ => false

/-- The calls that leave the process, in the order they are made. -/
inductive NetEvent where
  /-- Call `net.Dial(network, addr)`. -/
  | dial (network addr : String)
  /-- Call `jsonrpc.Dial(network, addr)`. -/
  | jsonrpcDial (network addr : String)
  /-- Call `client.Call(serviceMethod, args, reply)` on a client using `codec`. -/
  | call (codec : Codec) (serviceMethod : String) (args reply : GoAny)
  /-- Call `client.Close()`. -/
  | close
  /-- Call `http.Post(url, contentType, body)`. -/
  | post (url contentType : String) (body : JSONRPCRequest)
  /-- Call `resp.Body.Close()`. -/
  | closeBody

/-- The world outside the client: what each external call answers. -/
structure Net where
  /-- Result of `net.Dial`: the error, `none` when connected. -/
  dial : String → String → Option String
  /-- Result of `jsonrpc.Dial`: the error, `none` when connected. -/
  jsonrpcDial : String → String → Option String
  /-- Result of `client.Call` on a connection to `addr`: the reply slot after
  the call and the error. -/
  call : Codec → String → String → GoAny → GoAny → GoAny × Option String
  /-- Result of `uuid.NewString()`. -/
  uuid : String
  /-- Result of `http.Post`: the response body or the error. -/
  post : String → String → JSONRPCRequest → Except String String
  /-- Result of `json.NewDecoder(resp.Body).Decode(&rpcResp)`. -/
  decode : String → Except String jSONRPCResponse
  /-- Result of `conv.Unmarshal(raw, reply)`: the reply slot after the call and
  the error. -/
  unmarshal : String → GoAny → GoAny × Option String

/-- A finished call of a client method: the external calls made, the reply slot
afterwards, and how the call ended. -/
structure Run where
  events : List NetEvent
  reply : GoAny
  result : Outcome

/-- Type `RpcClient`. -/
structure RpcClient where
  network : String
  serverAddr : String
  pathAddr : String
  tcpClientCodec : String
  serverConn : Option conn.Connect
  deriving DecidableEq, Repr

/-- Function `NewRpcClient`; the returned error is always nil. -/
def NewRpcClient (network : String) (serverConn : Option conn.Connect) :
    RpcClient × Option GoError :=
  ({ network := network, serverAddr := "", pathAddr := "", tcpClientCodec := "",
     serverConn := serverConn }, none)

namespace RpcClient

/-- Method `WithHttpRPCPath`. -/
def WithHttpRPCPath (s : RpcClient) (path : String) : RpcClient :=
  if path = "" then s else { s with pathAddr := path }

/-- Method `WithTcpRPCCodec`. -/
def WithTcpRPCCodec (s : RpcClient) (codec : String) : RpcClient :=
  if codec = "" then s else { s with tcpClientCodec := codec }

/-- Method `WithServerAddr`. -/
def WithServerAddr (s : RpcClient) (addr : String) : RpcClient :=
  if addr = "" then s else { s with serverAddr := addr }

/-- The codec test of `execTcpClient` (`s.tcpClientCodec == "msgpack"`). -/
def tcpCodec (s : RpcClient) : Codec :=
  if s.tcpClientCodec = "msgpack" then .msgpack else .jsonrpc

/-- Method `execTcpClient`. -/
def execTcpClient (env : Net) (s : RpcClient) (serviceMethod : String)
    (args reply : GoAny) : Run :=
  let serverAddr := ""
  let serverAddr :=
    match s.serverConn with
    | some c => if c.Host ≠ "" then net.JoinHostPort c.Host c.Port else serverAddr
    | none => serverAddr
  let serverAddr := if serverAddr = "" then s.serverAddr else serverAddr
  if serverAddr = "" then
    ⟨[], reply, .err (.errorf "serverAddr is empty" [])⟩
  else
    match s.tcpCodec with
    | .msgpack =>
      match env.dial "tcp" serverAddr with
      | some e => ⟨[.dial "tcp" serverAddr], reply, .err (.ext e)⟩
      | none =>
        match env.call .msgpack serverAddr serviceMethod args reply with
        | (reply2, some e) =>
          ⟨[.dial "tcp" serverAddr, .call .msgpack serviceMethod args reply, .close],
            reply2, .err (.ext e)⟩
        | (reply2, none) =>
          ⟨[.dial "tcp" serverAddr, .call .msgpack serviceMethod args reply, .close],
            reply2, .ok⟩
    | .jsonrpc =>
      match env.jsonrpcDial "tcp" serverAddr with
      | some e => ⟨[.jsonrpcDial "tcp" serverAddr], reply, .err (.ext e)⟩
      | none =>
        match env.call .jsonrpc serverAddr serviceMethod args reply with
        | (reply2, some e) =>
          ⟨[.jsonrpcDial "tcp" serverAddr, .call .jsonrpc serviceMethod args reply, .close],
            reply2, .err (.ext e)⟩
        | (reply2, none) =>
          ⟨[.jsonrpcDial "tcp" serverAddr, .call .jsonrpc serviceMethod args reply, .close],
            reply2, .ok⟩

/-- Method `execHttpClient`. -/
def execHttpClient (env : Net) (s : RpcClient) (serviceMethod : String)
    (args reply : GoAny) : Run :=
  let reqJSON : JSONRPCRequest :=
    { jsonrpc := "2.0", method := serviceMethod, params := [args], id := env.uuid }
  let serverAddr := ""
  let serverAddr :=
    match s.serverConn with
    | some c => if c.Host ≠ "" then net.JoinHostPort c.Host c.Port else serverAddr
    | none => serverAddr
  let serverAddr := if serverAddr = "" then s.serverAddr else serverAddr
  if serverAddr = "" ∨ s.pathAddr = "" then
    ⟨[], reply, .err (.errorf "serverAddr or pathAddr is empty" [])⟩
  else
    let url := "http://" ++ serverAddr ++ s.pathAddr
    match env.post url "application/json" reqJSON with
    | .error e => ⟨[.post url "application/json" reqJSON], reply, .err (.ext e)⟩
    | .ok body =>
      match env.decode body with
      | .error e =>
        ⟨[.post url "application/json" reqJSON, .closeBody], reply, .err (.ext e)⟩
      | .ok rpcResp =>
        if rpcResp.Error.isNil = false then
          ⟨[.post url "application/json" reqJSON, .closeBody], reply,
            .err (.errorf "调用失败: %v\n" [rpcResp.Error])⟩
        else
          match env.unmarshal rpcResp.Result reply with
          | (reply2, some e) =>
            ⟨[.post url "application/json" reqJSON, .closeBody], reply2, .err (.ext e)⟩
          | (reply2, none) =>
            ⟨[.post url "application/json" reqJSON, .closeBody], reply2, .ok⟩

/-- Method `Submit`. The two `Type()` calls of the http branch panic on the
zero Value. -/
def Submit (env : Net) (s : RpcClient) (serviceMethod : String)
    (args reply : GoAny) : Run :=
  if s.network = "tcp" then
    if cond.IsPointer args = false then
      ⟨[], reply, .err (.errorf "args is not pointer" [])⟩
    else if cond.IsPointer reply = false then
      ⟨[], reply, .err (.errorf "reply is not pointer" [])⟩
    else
      s.execTcpClient env serviceMethod args reply
  else if s.network = "http" then
    if cond.IsPointer args = false then
      ⟨[], reply, .err (.errorf "args is not struct pointer" [])⟩
    else if cond.IsPointer reply = false then
      ⟨[], reply, .err (.errorf "reply is not struct pointer" [])⟩
    else
      match (reflect.Indirect (reflect.ValueOf args)).Type with
      | none => ⟨[], reply, .panic "reflect: call of reflect.Value.Type on zero Value"⟩
      | some ta =>
        if ta.Kind ≠ reflect.Kind.Struct then
          ⟨[], reply, .err (.errorf "args is not struct pointer" [])⟩
        else
          match (reflect.Indirect (reflect.ValueOf reply)).Type with
          | none => ⟨[], reply, .panic "reflect: call of reflect.Value.Type on zero Value"⟩
          | some tr =>
            if tr.Kind ≠ reflect.Kind.Struct then
              ⟨[], reply, .err (.errorf "reply is not struct pointer" [])⟩
            else
              s.execHttpClient env serviceMethod args reply
  else
    ⟨[], reply, .err (.errorf "not support" [])⟩

end RpcClient

/-! ## jsonrpc_server.go -/

/-- Whether a value of type `any` is the nil interface (`x == nil`). -/
def GoAny.isNil : GoAny → Bool
  | .nil => true
  | .dyn _ _ => false

/-- Type `ServiceRegistration`. -/
structure ServiceRegistration where
  Name : String
  Handler : GoAny

/-- How a call of an external function ends: it returns a value or it panics. -/
inductive Call (α : Type) where
  | returns (a : α)
  | panics (msg : String)

/-- How a constructor with result `(value, error)` ends: `ok v` is `(v, nil)`,
`error e` is `(nil, e)`, `panic msg` is a run-time panic. -/
inductive Built (α : Type) where
  | ok (a : α)
  | error (e : GoError)
  | panic (msg : String)

namespace rpc

/-- The operations of `net/rpc` on a `*rpc.Server` whose state has type `σ`:
a register call that returns gives the server afterwards and the error. -/
structure Ops (σ : Type) where
  NewServer : σ
  Register : σ → GoAny → Call (σ × Option String)
  RegisterName : σ → String → GoAny → Call (σ × Option String)

end rpc

namespace httprpc

/-- The operations of gorilla/rpc on a `*Server` whose state has type `η`. -/
structure Ops (η : Type) where
  NewServer : η
  /-- Call `RegisterCodec(httpjson.NewCodec(), contentType)`. -/
  RegisterCodec : η → String → η
  /-- Call `RegisterService(receiver, name)`. -/
  RegisterService : η → GoAny → String → Call (η × Option String)

end httprpc

namespace lo

/-- Function `lo.ForEach` for an iteratee acting on captured variables of type
`S`: the elements are visited in order, and a panic of the iteratee ends the
iteration. -/
def ForEach {A S : Type} (iteratee : S → A → Call S) : S → List A → Call S
  | s, [] => .returns s
  | s, a :: rest =>
    match iteratee s a with
    | .panics msg => .panics msg
    | .returns s2 => ForEach iteratee s2 rest

end lo

/-- The panic of a nil pointer dereference. -/
def nilDereference : String :=
  "runtime error: invalid memory address or nil pointer dereference"

/-- A bound `net.Listener`, identified by its address. -/
structure Listener where
  addr : String
  deriving DecidableEq, Repr

/-- Type `RpcService`; `σ` and `η` are the states of the tcp and http
dispatchers, `none` is a nil pointer. -/
structure RpcService (σ η : Type) where
  network : String
  httpServer : Option η
  httpServerHandler : Option η
  tcpClientCodec : String
  tcpServer : Option σ
  listener : Option Listener
  pathAddr : String
  serverConn : Option conn.Connect

/-- The value of `new(RpcService)`. -/
def RpcService.zero {σ η : Type} : RpcService σ η :=
  { network := "", httpServer := none, httpServerHandler := none, tcpClientCodec := "",
    tcpServer := none, listener := none, pathAddr := "", serverConn := none }

/-- The closure that `newTcpServer` hands to `lo.ForEach`, acting on the
captured `newServer` and `retErr`; `service` is a `*ServiceRegistration`. -/
def newTcpServer.body {σ : Type} (lib : rpc.Ops σ) (acc : σ × Option multierror.Error)
    (service : Option ServiceRegistration) : Call (σ × Option multierror.Error) :=
  match service with
  | none => .panics nilDereference
  | some service =>
    if service.Handler.isNil then .returns acc
    else if service.Name = "" then
      match lib.Register acc.1 service.Handler with
      | .panics msg => .panics msg
      | .returns (srv, some err) => .returns (srv, some (multierror.Append acc.2 err))
      | .returns (srv, none) => .returns (srv, acc.2)
    else
      match lib.RegisterName acc.1 service.Name service.Handler with
      | .panics msg => .panics msg
      | .returns (srv, some err) => .returns (srv, some (multierror.Append acc.2 err))
      | .returns (srv, none) => .returns (srv, acc.2)

/-- Function `newTcpServer`. -/
def newTcpServer {σ η : Type} (lib : rpc.Ops σ)
    (services : List (Option ServiceRegistration)) : Built (RpcService σ η) :=
  match lo.ForEach (newTcpServer.body lib) (lib.NewServer, none) services with
  | .panics msg => .panic msg
  | .returns (_, some retErr) => .error (.multi retErr)
  | .returns (newServer, none) =>
    .ok { (RpcService.zero : RpcService σ η) with tcpServer := some newServer }

/-- The closure that `newHttpServer` hands to `lo.ForEach`. -/
def newHttpServer.body {η : Type} (lib : httprpc.Ops η) (acc : η × Option multierror.Error)
    (service : Option ServiceRegistration) : Call (η × Option multierror.Error) :=
  match service with
  | none => .panics nilDereference
  | some service =>
    if service.Handler.isNil then .returns acc
    else
      match lib.RegisterService acc.1 service.Handler service.Name with
      | .panics msg => .panics msg
      | .returns (srv, some err) => .returns (srv, some (multierror.Append acc.2 err))
      | .returns (srv, none) => .returns (srv, acc.2)

/-- Function `newHttpServer`. -/
def newHttpServer {σ η : Type} (lib : httprpc.Ops η)
    (services : List (Option ServiceRegistration)) : Built (RpcService σ η) :=
  let newServer := lib.RegisterCodec lib.NewServer "application/json"
  match lo.ForEach (newHttpServer.body lib) (newServer, none) services with
  | .panics msg => .panic msg
  | .returns (_, some retErr) => .error (.multi retErr)
  | .returns (newServer, none) =>
    .ok { (RpcService.zero : RpcService σ η) with
          httpServer := some newServer, httpServerHandler := some newServer }

/-- Function `NewRpcService`; `services` is a `[]*ServiceRegistration`. -/
def NewRpcService {σ η : Type} (tcp : rpc.Ops σ) (http : httprpc.Ops η) (network : String)
    (services : List (Option ServiceRegistration)) : Built (RpcService σ η) :=
  if services.length = 0 then
    .error (.errorf "services is empty" [])
  else if network = "tcp" then
    match newTcpServer tcp services with
    | .panic msg => .panic msg
    | .error err => .error err
    | .ok newServer => .ok { newServer with network := network }
  else if network = "http" then
    match newHttpServer http services with
    | .panic msg => .panic msg
    | .error err => .error err
    | .ok newServer => .ok { newServer with network := network }
  else
    .error (.errorf "network is not tcp or http" [])

/-- What `StartServer` leaves running in the background. -/
inductive Serving where
  /-- The accept loop on the tcp dispatcher; `codec` is the codec its test
  `s.tcpClientCodec == "msgpack"` selects for an accepted connection. -/
  | tcp (codec : Codec)
  /-- The http dispatcher mounted at `path` and served on the listener. -/
  | http (path : String)
  deriving DecidableEq, Repr

/-- The world outside the server. -/
structure ServerEnv where
  /-- Result of `conv.Int` (its error is discarded by the caller). -/
  convInt : String → Int
  /-- Result of `net.Listen(network, addr)`. -/
  listen : String → String → Except String Listener
  /-- Result of `uuid.NewString()`. -/
  uuid : String

/-- Function `defaultListenTCP`. -/
def defaultListenTCP (env : ServerEnv) (port : Int) : Except String (Listener × String) :=
  let addr := "0.0.0.0:" ++ toString port
  match env.listen "tcp" addr with
  | .error err => .error err
  | .ok l => .ok (l, l.addr)

/-- A finished call of `StartServer`: the receiver afterwards, the background
activity that was launched, and the returned error. -/
structure Started (σ η : Type) where
  service : RpcService σ η
  serving : Option Serving
  result : Outcome

namespace RpcService

variable {σ η : Type}

/-- Method `WithServerPort`; `conv.String` of an int is its decimal text. -/
def WithServerPort (s : RpcService σ η) (port : Int) : RpcService σ η :=
  if port > 0 then
    let c : conn.Connect :=
      match s.serverConn with
      | none => { Host := "", Port := "" }
      | some c => c
    { s with serverConn := some { c with Port := toString port } }
  else s

/-- Method `WithServerListener`. -/
def WithServerListener (s : RpcService σ η) (l : Option Listener) : RpcService σ η :=
  match l with
  | some l => { s with listener := some l }
  | none => s

/-- Method `WithTcpRPCCodec`. -/
def WithTcpRPCCodec (s : RpcService σ η) (codec : String) : RpcService σ η :=
  if codec = "" then s else { s with tcpClientCodec := codec }

/-- Method `WithHttpRPCPath`. -/
def WithHttpRPCPath (s : RpcService σ η) (path : String) : RpcService σ η :=
  if path = "" then s else { s with pathAddr := path }

/-- The codec test of the accept loop (`s.tcpClientCodec == "msgpack"`). -/
def tcpCodec (s : RpcService σ η) : Codec :=
  if s.tcpClientCodec = "msgpack" then .msgpack else .jsonrpc

/-- Method `StartServer`. The route path generated inside the http goroutine
is reported in `Serving.http`. -/
def StartServer (env : ServerEnv) (s : RpcService σ η) : Started σ η :=
  let bound : Except String (RpcService σ η) :=
    match s.listener with
    | some _ => .ok s
    | none =>
      let port : Int := 0
      let port :=
        match s.serverConn with
        | some c => env.convInt c.Port
        | none => port
      match defaultListenTCP env port with
      | .error err => .error err
      | .ok (l, _) => .ok { s with listener := some l }
  match bound with
  | .error err => ⟨s, none, .err (.ext err)⟩
  | .ok s =>
    if s.tcpServer.isSome then
      ⟨s, some (.tcp s.tcpCodec), .ok⟩
    else if s.httpServer.isSome ∧ s.httpServerHandler.isSome then
      let path := if s.pathAddr = "" then "/" ++ env.uuid else s.pathAddr
      ⟨s, some (.http path), .ok⟩
    else
      ⟨s, none, .err (.errorf "not support" [])⟩

end RpcService

/-- One of the configuration calls of `RpcService`. -/
inductive ConfigCall where
  | WithServerPort (port : Int)
  | WithServerListener (l : Option Listener)
  | WithTcpRPCCodec (codec : String)
  | WithHttpRPCPath (path : String)

/-- Performs a configuration call on a service. -/
def ConfigCall.run {σ η : Type} (s : RpcService σ η) : ConfigCall → RpcService σ η
  | .WithServerPort port => s.WithServerPort port
  | .WithServerListener l => s.WithServerListener l
  | .WithTcpRPCCodec codec => s.WithTcpRPCCodec codec
  | .WithHttpRPCPath path => s.WithHttpRPCPath path

/-- Performs a sequence of configuration calls, first to last. -/
def configure {σ η : Type} (s : RpcService σ η) (calls : List ConfigCall) : RpcService σ η :=
  calls.foldl ConfigCall.run s

/-! ## Specification-side definitions and sample inputs -/

/-- The connection resolver as the specification words it: a non-null profile
with a non-empty host gives the joined host and port, otherwise the fallback
address is used. -/
def resolve (profile : Option conn.Connect) (fallbackAddr : String) : String :=
  match profile with
  | some c => if c.Host ≠ "" then net.JoinHostPort c.Host c.Port else fallbackAddr
  | none => fallbackAddr

/-- A network on which every call succeeds and replies are left unchanged. -/
def Net.quiet : Net where
  dial _ _ := none
  jsonrpcDial _ _ := none
  call _ _ _ _ reply := (reply, none)
  uuid := "00000000-0000-4000-8000-000000000000"
  post _ _ _ := .ok ""
  decode _ := .ok { JSONRPC := "2.0", Result := "", Error := .null, Id := "" }
  unmarshal _ reply := (reply, none)

/-- The client of `TestTCPJsonRPC`. -/
def testTcpClient : RpcClient :=
  (NewRpcClient "tcp" (some { Host := "127.0.0.1", Port := "1234" })).1

/-- The client of `TestHTTPJsonRPC`. -/
def testHttpClient : RpcClient :=
  (NewRpcClient "http" (some { Host := "127.0.0.1", Port := "1235" })).1.WithHttpRPCPath "/rpc"

/-- The value `&Args{A: 10, B: 20}`. -/
def testArgs : GoAny :=
  .dyn (.Ptr (.Struct "Args"))
    (some (.object [("A", .number 10), ("B", .number 20)]))

/-- The value `&reply` for `var reply int`. -/
def testIntReply : GoAny := .dyn (.Ptr .Int) (some (.number 0))

/-- The value `&reply` for `var reply Result`. -/
def testResultReply : GoAny :=
  .dyn (.Ptr (.Struct "Result")) (some (.object [("value", .number 0)]))

/-- The register operation that `newTcpServer` applies to a registration:
`Register` for an empty name, `RegisterName` otherwise. -/
def tcpRegister {σ : Type} (lib : rpc.Ops σ) (srv : σ) (r : ServiceRegistration) :
    Call (σ × Option String) :=
  if r.Name = "" then lib.Register srv r.Handler else lib.RegisterName srv r.Name r.Handler

/-- The register operation that `newHttpServer` applies to a registration. -/
def httpRegister {η : Type} (lib : httprpc.Ops η) (srv : η) (r : ServiceRegistration) :
    Call (η × Option String) :=
  lib.RegisterService srv r.Handler r.Name

/-- A run of register calls: the dispatcher it leaves, the error of each call
that returned (`none` for a call that succeeded), in call order, and the panic
that ended the run, if any. -/
structure Calls (σ : Type) where
  server : σ
  results : List (Option String)
  panic : Option String

/-- Applies the register operation to the registrations of the list, in list
order, each on the server left by the previous call whether or not that call
returned an error; the run ends at the first call that panics, and at a nil
element. -/
def registerAll {σ : Type} (reg : σ → ServiceRegistration → Call (σ × Option String)) :
    σ → List (Option ServiceRegistration) → Calls σ
  | srv, [] => ⟨srv, [], none⟩
  | srv, none :: _ => ⟨srv, [], some nilDereference⟩
  | srv, some r :: rs =>
    match reg srv r with
    | .panics msg => ⟨srv, [], some msg⟩
    | .returns out =>
      ⟨(registerAll reg out.1 rs).server, out.2 :: (registerAll reg out.1 rs).results,
        (registerAll reg out.1 rs).panic⟩

/-- The list without the registrations whose handler is nil (a nil element is
not a registration and stays). -/
def withHandler (services : List (Option ServiceRegistration)) :
    List (Option ServiceRegistration) :=
  services.filter (fun p =>
    match p with
    | some r => !r.Handler.isNil
    | none => true)

/-- The accumulator `retErr` after appending the given errors in order. -/
def retErrAfter (retErr : Option multierror.Error) (errs : List String) :
    Option multierror.Error :=
  errs.foldl (fun acc e => some (multierror.Append acc e)) retErr

/-- A dispatcher state that records the registered service names, after
`net/rpc`: `Register` takes the name from `reflect.Indirect(rcvr).Type()`,
which panics for a nil pointer; a name can be registered once. -/
def rpc.sample : rpc.Ops (List String) where
  NewServer := []
  Register srv rcvr :=
    match (reflect.Indirect (reflect.ValueOf rcvr)).Type with
    | none => .panics "reflect: call of reflect.Value.Type on zero Value"
    | some (.Struct n) =>
      if n ∈ srv then .returns (srv, some ("rpc: service already defined: " ++ n))
      else .returns (srv ++ [n], none)
    | some _ => .returns (srv, some "rpc.Register: no service name for type")
  RegisterName srv name _ :=
    if name ∈ srv then .returns (srv, some ("rpc: service already defined: " ++ name))
    else .returns (srv ++ [name], none)

/-- The http counterpart of `rpc.sample`, after gorilla/rpc: with an empty name
`RegisterService` takes the name from `reflect.Indirect(rcvr).Type()`. -/
def httprpc.sample : httprpc.Ops (List String) where
  NewServer := []
  RegisterCodec srv _ := srv
  RegisterService srv rcvr name :=
    if name = "" then
      match (reflect.Indirect (reflect.ValueOf rcvr)).Type with
      | none => .panics "reflect: call of reflect.Value.Type on zero Value"
      | some (.Struct n) =>
        if n ∈ srv then .returns (srv, some ("rpc: service already defined: " ++ n))
        else .returns (srv ++ [n], none)
      | some _ => .returns (srv, some "rpc: no service name for type")
    else if name ∈ srv then .returns (srv, some ("rpc: service already defined: " ++ name))
    else .returns (srv ++ [name], none)

/-- The value `new(Arith)`. -/
def testHandler : GoAny := .dyn (.Ptr (.Struct "Arith")) (some (.number 0))

/-- The registration list of the tests: one unnamed `Arith` handler. -/
def testServices : List (Option ServiceRegistration) :=
  [some { Name := "", Handler := testHandler }]

/-- The register calls of the tcp builder on a registration list. -/
def tcpCalls {σ : Type} (lib : rpc.Ops σ) (services : List (Option ServiceRegistration)) :
    Calls σ :=
  registerAll (tcpRegister lib) lib.NewServer (withHandler services)

/-- The register calls of the http builder on a registration list. -/
def httpCalls {η : Type} (lib : httprpc.Ops η) (services : List (Option ServiceRegistration)) :
    Calls η :=
  registerAll (httpRegister lib) (lib.RegisterCodec lib.NewServer "application/json")
    (withHandler services)

/-- A registration without handler. -/
def nilRegistration : Option ServiceRegistration := some { Name := "", Handler := .nil }

/-- An unnamed registration whose handler is the typed nil pointer
`(*Arith)(nil)`. -/
def nilPointerRegistration : Option ServiceRegistration :=
  some { Name := "", Handler := .dyn (.Ptr (.Struct "Arith")) none }

/-- A registration of `new(Arith)` under the given name. -/
def namedRegistration (name : String) : Option ServiceRegistration :=
  some { Name := name, Handler := testHandler }

/-- A host on which every listen call succeeds. -/
def ServerEnv.free : ServerEnv where
  convInt str := str.toInt?.getD 0
  listen _ addr := .ok { addr := addr }
  uuid := "00000000-0000-4000-8000-000000000000"

/-- A host on which the port is taken: every listen call fails. -/
def ServerEnv.busy : ServerEnv where
  convInt str := str.toInt?.getD 0
  listen _ _ := .error "bind: address already in use"
  uuid := "00000000-0000-4000-8000-000000000000"

/-- The service that `NewRpcService` builds in `TestTCPJsonRPC`. -/
def testTcpService : RpcService (List String) (List String) :=
  { (RpcService.zero : RpcService (List String) (List String)) with
    tcpServer := some ["Arith"], network := "tcp" }

/-- A network whose http server answers every post with an envelope whose
error field holds the given value. -/
def Net.answering (error : JsonAny) : Net where
  dial _ _ := none
  jsonrpcDial _ _ := none
  call _ _ _ _ reply := (reply, none)
  uuid := "00000000-0000-4000-8000-000000000000"
  post _ _ _ := .ok "response"
  decode _ := .ok { JSONRPC := "2.0", Result := "null", Error := error, Id := "" }
  unmarshal _ reply := (reply, none)

/-- The value `(*int)(nil)`. -/
def nilIntPointer : GoAny := .dyn (.Ptr .Int) none

/-- The value `(*Args)(nil)`. -/
def nilArgsPointer : GoAny := .dyn (.Ptr (.Struct "Args")) none

/-- A list with a nil-handler registration, a named registration, an unnamed
one that collides with it, and a further named one. -/
def mixedServices : List (Option ServiceRegistration) :=
  [nilRegistration, namedRegistration "Arith", some { Name := "", Handler := testHandler },
    namedRegistration "Other"]

/-- A listener handed to `WithServerListener`. -/
def testListener : Listener := { addr := "127.0.0.1:1234" }

/-! ## Theorems -/

theorem net.JoinHostPort_ne_empty (host port : String) : net.JoinHostPort host port ≠ "" := by
  intro h
  have hl := congrArg String.length h
  unfold net.JoinHostPort at hl
  split at hl <;> simp only [String.length_append, String.length_empty,
    Nat.add_eq_zero_iff] at hl
  · exact absurd hl.1.1.1 (by decide)
  · exact absurd hl.1.2 (by decide)

theorem resolve_code (s : RpcClient) :
    (if (match s.serverConn with
          | some c => if c.Host ≠ "" then net.JoinHostPort c.Host c.Port else ""
          | none => "") = "" then s.serverAddr
      else (match s.serverConn with
          | some c => if c.Host ≠ "" then net.JoinHostPort c.Host c.Port else ""
          | none => "")) = resolve s.serverConn s.serverAddr := by
  unfold resolve
  cases hc : s.serverConn with
  | none => simp
  | some c =>
    by_cases hh : c.Host = ""
    · simp [hh]
    · simp [hh, net.JoinHostPort_ne_empty]

/-- C9: `Arith.Add` stores the Go `int` sum of `A` and `B` (equal to `A + B`
modulo `2 ^ 64`, inside the signed 64-bit range) in the reply slot and returns
no error; `Arith.HttpAdd` stores the same sum in `result.Value`, leaves the
args as they were and returns no error; for `(10, 20)` both give `30`. -/
theorem Arith_Add_computes_sum (args : Args) (reply : Int) (result : Result) :
    (Arith.Add args reply).2 = none ∧
    (Arith.Add args reply).1 % 2 ^ 64 = (args.A + args.B) % 2 ^ 64 ∧
    -(2 ^ 63) ≤ (Arith.Add args reply).1 ∧ (Arith.Add args reply).1 < 2 ^ 63 ∧
    (Arith.HttpAdd args result).1 = args ∧
    (Arith.HttpAdd args result).2.2 = none ∧
    (Arith.HttpAdd args result).2.1.Value % 2 ^ 64 = (args.A + args.B) % 2 ^ 64 ∧
    -(2 ^ 63) ≤ (Arith.HttpAdd args result).2.1.Value ∧
    (Arith.HttpAdd args result).2.1.Value < 2 ^ 63 ∧
    (Arith.Add ⟨10, 20⟩ reply).1 = 30 ∧
    (Arith.HttpAdd ⟨10, 20⟩ result).2.1 = ⟨30⟩ := by
  simp only [Arith.Add, Arith.HttpAdd, intAdd]
  refine ⟨?_, ?_, ?_, ?_, ?_, ?_, ?_, ?_, ?_, ?_, ?_⟩ <;>
    first | trivial | rfl | omega

/-- C1: with `addr` the resolved address (the joined host and port of a
non-nil profile with a non-empty host, else `serverAddr`), `execTcpClient` and
`execHttpClient` both use `addr`: when `addr` is empty both return their error
without any external call; otherwise the tcp call starts by dialling `addr` and
the http call (given a path) starts by posting to `addr`, and no dial or post
of either run goes anywhere else. -/
theorem client_address_resolution (env : Net) (s : RpcClient) (serviceMethod : String)
    (args reply : GoAny) :
    (∀ c, s.serverConn = some c → c.Host ≠ "" →
      resolve s.serverConn s.serverAddr = net.JoinHostPort c.Host c.Port) ∧
    (∀ c, s.serverConn = some c → c.Host ≠ "" → c.Host.contains ':' = false →
      resolve s.serverConn s.serverAddr = c.Host ++ ":" ++ c.Port) ∧
    ((s.serverConn = none ∨ ∃ c, s.serverConn = some c ∧ c.Host = "") →
      resolve s.serverConn s.serverAddr = s.serverAddr) ∧
    (resolve s.serverConn s.serverAddr = "" →
      (s.execTcpClient env serviceMethod args reply).events = [] ∧
      (s.execTcpClient env serviceMethod args reply).result
        = .err (.errorf "serverAddr is empty" []) ∧
      (s.execHttpClient env serviceMethod args reply).events = [] ∧
      (s.execHttpClient env serviceMethod args reply).result
        = .err (.errorf "serverAddr or pathAddr is empty" [])) ∧
    (resolve s.serverConn s.serverAddr ≠ "" →
      (s.execTcpClient env serviceMethod args reply).events.head?
        = some (.dial "tcp" (resolve s.serverConn s.serverAddr)) ∨
      (s.execTcpClient env serviceMethod args reply).events.head?
        = some (.jsonrpcDial "tcp" (resolve s.serverConn s.serverAddr))) ∧
    (∀ n a, (NetEvent.dial n a ∈ (s.execTcpClient env serviceMethod args reply).events ∨
        NetEvent.jsonrpcDial n a ∈ (s.execTcpClient env serviceMethod args reply).events) →
      a = resolve s.serverConn s.serverAddr) ∧
    (resolve s.serverConn s.serverAddr ≠ "" → s.pathAddr ≠ "" →
      ∃ body, (s.execHttpClient env serviceMethod args reply).events.head?
        = some (.post ("http://" ++ resolve s.serverConn s.serverAddr ++ s.pathAddr)
            "application/json" body)) ∧
    (∀ url ct body,
      NetEvent.post url ct body ∈ (s.execHttpClient env serviceMethod args reply).events →
      url = "http://" ++ resolve s.serverConn s.serverAddr ++ s.pathAddr) := by
  have hr := resolve_code s
  refine ⟨?_, ?_, ?_, ?_, ?_, ?_, ?_, ?_⟩
  · intro c hc hh
    simp [resolve, hc, hh]
  · intro c hc hh hcol
    simp [resolve, hc, hh, net.JoinHostPort, hcol]
  · rintro (hc | ⟨c, hc, hh⟩)
    · simp [resolve, hc]
    · simp [resolve, hc, hh]
  · intro h0
    simp only [RpcClient.execTcpClient, RpcClient.execHttpClient, hr, h0]
    simp
  · intro h0
    simp only [RpcClient.execTcpClient, hr, if_neg h0]
    cases s.tcpCodec with
    | msgpack =>
      simp only []
      cases env.dial "tcp" (resolve s.serverConn s.serverAddr) with
      | some e => simp
      | none =>
        simp only []
        rcases hcall : env.call .msgpack (resolve s.serverConn s.serverAddr) serviceMethod
          args reply with ⟨r2, _ | e⟩ <;> simp
    | jsonrpc =>
      simp only []
      cases env.jsonrpcDial "tcp" (resolve s.serverConn s.serverAddr) with
      | some e => simp
      | none =>
        simp only []
        rcases hcall : env.call .jsonrpc (resolve s.serverConn s.serverAddr) serviceMethod
          args reply with ⟨r2, _ | e⟩ <;> simp
  · intro n a
    simp only [RpcClient.execTcpClient, hr]
    split
    · simp
    · cases s.tcpCodec with
      | msgpack =>
        simp only []
        cases env.dial "tcp" (resolve s.serverConn s.serverAddr) with
        | some e => simp
        | none =>
          simp only []
          rcases hcall : env.call .msgpack (resolve s.serverConn s.serverAddr) serviceMethod
            args reply with ⟨r2, _ | e⟩ <;> simp
      | jsonrpc =>
        simp only []
        cases env.jsonrpcDial "tcp" (resolve s.serverConn s.serverAddr) with
        | some e => simp
        | none =>
          simp only []
          rcases hcall : env.call .jsonrpc (resolve s.serverConn s.serverAddr) serviceMethod
            args reply with ⟨r2, _ | e⟩ <;> simp
  · intro h0 hp
    simp only [RpcClient.execHttpClient, hr, h0, hp, or_self, if_false]
    split
    · exact ⟨_, rfl⟩
    · split
      · exact ⟨_, rfl⟩
      · split
        · exact ⟨_, rfl⟩
        · split <;> exact ⟨_, rfl⟩
  · intro url ct body
    simp only [RpcClient.execHttpClient, hr]
    split
    · simp
    · split
      · simp; intro h _ _; exact h
      · split
        · simp; intro h _ _; exact h
        · split
          · simp; intro h _ _; exact h
          · split <;> simp <;> intro h _ _ <;> exact h

/-- C3: `NewRpcService` returns `(nil, error)` for an empty registration list
whatever the network, and for a network other than "tcp" and "http" whatever
the list; a service is returned only for a non-empty list and a network that
is "tcp" or "http". -/
theorem NewRpcService_preconditions {σ η : Type} (tcp : rpc.Ops σ) (http : httprpc.Ops η)
    (network : String) (services : List (Option ServiceRegistration)) :
    (services = [] →
      NewRpcService tcp http network services = .error (.errorf "services is empty" [])) ∧
    (network ≠ "tcp" → network ≠ "http" →
      NewRpcService tcp http network services = .error (.errorf "services is empty" []) ∨
      NewRpcService tcp http network services
        = .error (.errorf "network is not tcp or http" [])) ∧
    (∀ srv, NewRpcService tcp http network services = .ok srv →
      services ≠ [] ∧ (network = "tcp" ∨ network = "http")) := by
  refine ⟨?_, ?_, ?_⟩
  · intro h
    simp [NewRpcService, h]
  · intro h1 h2
    by_cases h : services = []
    · left; simp [NewRpcService, h]
    · right; simp [NewRpcService, h, h1, h2]
  · intro srv h
    by_cases hs : services = []
    · simp [NewRpcService, hs] at h
    · refine ⟨hs, ?_⟩
      by_contra hn
      push_neg at hn
      simp [NewRpcService, hs, hn.1, hn.2] at h

theorem retErrAfter_some (l errs : List String) :
    retErrAfter (some ⟨l⟩) errs = some ⟨l ++ errs⟩ := by
  induction errs generalizing l with
  | nil => simp [retErrAfter]
  | cons e es ih =>
    have h := ih (l ++ [e])
    simpa [retErrAfter, multierror.Append] using h

theorem retErrAfter_none (errs : List String) :
    retErrAfter none errs = if errs = [] then none else some ⟨errs⟩ := by
  cases errs with
  | nil => rfl
  | cons e es =>
    have h := retErrAfter_some [e] es
    simpa [retErrAfter, multierror.Append] using h

theorem ForEach_register {σ : Type}
    (reg : σ → ServiceRegistration → Call (σ × Option String))
    (body : σ × Option multierror.Error → Option ServiceRegistration →
      Call (σ × Option multierror.Error))
    (hnil : ∀ acc, body acc none = .panics nilDereference)
    (hbody : ∀ acc r, body acc (some r) =
      if r.Handler.isNil then .returns acc
      else match reg acc.1 r with
        | .panics msg => .panics msg
        | .returns (srv, some err) => .returns (srv, some (multierror.Append acc.2 err))
        | .returns (srv, none) => .returns (srv, acc.2))
    (services : List (Option ServiceRegistration)) (srv : σ)
    (acc : Option multierror.Error) :
    lo.ForEach body (srv, acc) services =
      match (registerAll reg srv (withHandler services)).panic with
      | some msg => .panics msg
      | none => .returns ((registerAll reg srv (withHandler services)).server,
          retErrAfter acc
            ((registerAll reg srv (withHandler services)).results.filterMap id)) := by
  induction services generalizing srv acc with
  | nil => simp [lo.ForEach, withHandler, registerAll, retErrAfter]
  | cons p ps ih =>
    cases p with
    | none =>
      have hf : withHandler (none :: ps) = none :: withHandler ps := by simp [withHandler]
      rw [hf]
      simp [lo.ForEach, hnil, registerAll]
    | some r =>
      by_cases hn : r.Handler.isNil = true
      · have hf : withHandler (some r :: ps) = withHandler ps := by simp [withHandler, hn]
        rw [hf, lo.ForEach, hbody, if_pos hn]
        exact ih srv acc
      · have hf : withHandler (some r :: ps) = some r :: withHandler ps := by
          simp [withHandler, hn]
        rw [hf, lo.ForEach, hbody, if_neg hn]
        simp only [registerAll]
        rcases hreg : reg srv r with ⟨srv2, _ | err⟩ | msg
        · simp only []
          exact ih srv2 acc
        · simp only [List.filterMap_cons, id]
          exact ih srv2 (some (multierror.Append acc err))
        · rfl

theorem newTcpServer_closed {σ η : Type} (lib : rpc.Ops σ)
    (services : List (Option ServiceRegistration)) :
    (newTcpServer lib services : Built (RpcService σ η)) =
      match (tcpCalls lib services).panic with
      | some msg => .panic msg
      | none =>
        if (tcpCalls lib services).results.filterMap id = []
        then .ok { (RpcService.zero : RpcService σ η) with
          tcpServer := some (tcpCalls lib services).server }
        else .error (.multi ⟨(tcpCalls lib services).results.filterMap id⟩) := by
  have h := ForEach_register (tcpRegister lib) (newTcpServer.body lib)
    (by intro acc; rfl)
    (by intro acc r
        unfold newTcpServer.body tcpRegister
        by_cases hn : r.Handler.isNil = true
        · simp [hn]
        · by_cases hname : r.Name = "" <;> simp [hn, hname])
    services lib.NewServer none
  unfold newTcpServer tcpCalls
  rw [h]
  cases (registerAll (tcpRegister lib) lib.NewServer (withHandler services)).panic with
  | some msg => rfl
  | none =>
    simp only [retErrAfter_none]
    split_ifs <;> rfl

theorem newHttpServer_closed {σ η : Type} (lib : httprpc.Ops η)
    (services : List (Option ServiceRegistration)) :
    (newHttpServer lib services : Built (RpcService σ η)) =
      match (httpCalls lib services).panic with
      | some msg => .panic msg
      | none =>
        if (httpCalls lib services).results.filterMap id = []
        then .ok { (RpcService.zero : RpcService σ η) with
          httpServer := some (httpCalls lib services).server,
          httpServerHandler := some (httpCalls lib services).server }
        else .error (.multi ⟨(httpCalls lib services).results.filterMap id⟩) := by
  have h := ForEach_register (httpRegister lib) (newHttpServer.body lib)
    (by intro acc; rfl)
    (by intro acc r
        unfold newHttpServer.body httpRegister
        by_cases hn : r.Handler.isNil = true <;> simp [hn])
    services (lib.RegisterCodec lib.NewServer "application/json") none
  unfold newHttpServer httpCalls
  simp only []
  rw [h]
  cases (registerAll (httpRegister lib) (lib.RegisterCodec lib.NewServer "application/json")
      (withHandler services)).panic with
  | some msg => rfl
  | none =>
    simp only [retErrAfter_none]
    split_ifs <;> rfl

theorem registerAll_length {σ : Type}
    (reg : σ → ServiceRegistration → Call (σ × Option String))
    (srv : σ) (rs : List (Option ServiceRegistration))
    (h : (registerAll reg srv rs).panic = none) :
    (registerAll reg srv rs).results.length = rs.length := by
  induction rs generalizing srv with
  | nil => rfl
  | cons p ps ih =>
    cases p with
    | none => simp [registerAll] at h
    | some r =>
      simp only [registerAll] at h ⊢
      rcases hreg : reg srv r with out | msg
      · rw [hreg] at h
        simp only [] at h ⊢
        simp [ih out.1 h]
      · rw [hreg] at h
        simp at h

theorem filterMap_id_ne_nil (l : List (Option String)) :
    l.filterMap id ≠ [] ↔ ∃ msg, some msg ∈ l := by
  induction l with
  | nil => simp
  | cons a l ih =>
    cases a with
    | none => simpa using ih
    | some m => simp

theorem nil_element_aborts_build :
    (newTcpServer rpc.sample [none, namedRegistration "Other"]
      : Built (RpcService (List String) (List String))) = .panic nilDereference ∧
    (newHttpServer httprpc.sample [none, namedRegistration "Other"]
      : Built (RpcService (List String) (List String))) = .panic nilDereference := by
  constructor <;>
    simp [newTcpServer, newHttpServer, lo.ForEach, newTcpServer.body, newHttpServer.body]

/-- C4, as stated, fails: with register operations that behave as those of
`net/rpc` and gorilla/rpc on a typed nil-pointer receiver, a list whose first
registration has the handler `(*Arith)(nil)` and no name makes both builders
panic inside the first register call: no error and no service is returned,
and the second registration, whose handler is not nil, is never passed on. -/
theorem register_panic_aborts_build :
    (withHandler [nilPointerRegistration, namedRegistration "Other"]).length = 2 ∧
    (newTcpServer rpc.sample [nilPointerRegistration, namedRegistration "Other"]
      : Built (RpcService (List String) (List String)))
      = .panic "reflect: call of reflect.Value.Type on zero Value" ∧
    (newHttpServer httprpc.sample [nilPointerRegistration, namedRegistration "Other"]
      : Built (RpcService (List String) (List String)))
      = .panic "reflect: call of reflect.Value.Type on zero Value" ∧
    (tcpCalls rpc.sample [nilPointerRegistration, namedRegistration "Other"]).results = [] ∧
    (httpCalls httprpc.sample [nilPointerRegistration, namedRegistration "Other"]).results
      = [] := by
  refine ⟨?_, ?_, ?_, ?_, ?_⟩ <;>
    simp [withHandler, newTcpServer, newHttpServer, lo.ForEach, newTcpServer.body,
      newHttpServer.body, tcpCalls, httpCalls, registerAll, tcpRegister, httpRegister,
      nilPointerRegistration, namedRegistration, testHandler, GoAny.isNil, rpc.sample,
      httprpc.sample, reflect.Indirect, reflect.ValueOf, reflect.Value.Type]

/-- C4, amended: for each builder and every registration list on which the
run of register calls does not panic (`panic = none`: no register call panics
and no element of the list is a nil pointer), every registration with a
non-nil handler is passed to the register operation, in list order and each
after the previous one whether or not that one failed; the build is an error
(and no service) exactly when one of these calls failed, the aggregated error
then holds the errors of the failing calls, in call order, and otherwise the
service carries the dispatcher left by the calls. -/
theorem registration_errors_accumulated {σ η : Type} (tcp : rpc.Ops σ)
    (http : httprpc.Ops η) (services : List (Option ServiceRegistration)) :
    ((tcpCalls tcp services).panic = none →
      (tcpCalls tcp services).results.length = (withHandler services).length ∧
      (newTcpServer tcp services : Built (RpcService σ η)) =
        (if (tcpCalls tcp services).results.filterMap id = []
         then .ok { (RpcService.zero : RpcService σ η) with
            tcpServer := some (tcpCalls tcp services).server }
         else .error (.multi ⟨(tcpCalls tcp services).results.filterMap id⟩)) ∧
      ((∃ e, (newTcpServer tcp services : Built (RpcService σ η)) = .error e) ↔
        ∃ msg, some msg ∈ (tcpCalls tcp services).results)) ∧
    ((httpCalls http services).panic = none →
      (httpCalls http services).results.length = (withHandler services).length ∧
      (newHttpServer http services : Built (RpcService σ η)) =
        (if (httpCalls http services).results.filterMap id = []
         then .ok { (RpcService.zero : RpcService σ η) with
            httpServer := some (httpCalls http services).server,
            httpServerHandler := some (httpCalls http services).server }
         else .error (.multi ⟨(httpCalls http services).results.filterMap id⟩)) ∧
      ((∃ e, (newHttpServer http services : Built (RpcService σ η)) = .error e) ↔
        ∃ msg, some msg ∈ (httpCalls http services).results)) := by
  constructor
  · intro hp
    have hc : (newTcpServer tcp services : Built (RpcService σ η)) =
        (if (tcpCalls tcp services).results.filterMap id = []
         then .ok { (RpcService.zero : RpcService σ η) with
            tcpServer := some (tcpCalls tcp services).server }
         else .error (.multi ⟨(tcpCalls tcp services).results.filterMap id⟩)) := by
      rw [newTcpServer_closed, hp]
    refine ⟨registerAll_length _ _ _ hp, hc, ?_⟩
    rw [hc, ← filterMap_id_ne_nil]
    split
    · rename_i h
      constructor
      · rintro ⟨e, he⟩
        cases he
      · intro hne
        exact absurd h hne
    · rename_i h
      exact ⟨fun _ => h, fun _ => ⟨_, rfl⟩⟩
  · intro hp
    have hc : (newHttpServer http services : Built (RpcService σ η)) =
        (if (httpCalls http services).results.filterMap id = []
         then .ok { (RpcService.zero : RpcService σ η) with
            httpServer := some (httpCalls http services).server,
            httpServerHandler := some (httpCalls http services).server }
         else .error (.multi ⟨(httpCalls http services).results.filterMap id⟩)) := by
      rw [newHttpServer_closed, hp]
    refine ⟨registerAll_length _ _ _ hp, hc, ?_⟩
    rw [hc, ← filterMap_id_ne_nil]
    split
    · rename_i h
      constructor
      · rintro ⟨e, he⟩
        cases he
      · intro hne
        exact absurd h hne
    · rename_i h
      exact ⟨fun _ => h, fun _ => ⟨_, rfl⟩⟩

theorem registration_errors_accumulated_witness :
    (tcpCalls rpc.sample mixedServices).panic = none ∧
    (httpCalls httprpc.sample mixedServices).panic = none ∧
    (tcpCalls rpc.sample mixedServices).results.length = (withHandler mixedServices).length ∧
    ((∃ e, (newTcpServer rpc.sample mixedServices
        : Built (RpcService (List String) (List String))) = .error e) ↔
      ∃ msg, some msg ∈ (tcpCalls rpc.sample mixedServices).results) ∧
    ((∃ e, (newHttpServer httprpc.sample mixedServices
        : Built (RpcService (List String) (List String))) = .error e) ↔
      ∃ msg, some msg ∈ (httpCalls httprpc.sample mixedServices).results) :=
  have ht : (tcpCalls rpc.sample mixedServices).panic = none := by
    simp [tcpCalls, registerAll, withHandler, tcpRegister, mixedServices, nilRegistration,
      namedRegistration, testHandler, GoAny.isNil, rpc.sample, reflect.Indirect,
      reflect.ValueOf, reflect.Value.Type]
  have hh : (httpCalls httprpc.sample mixedServices).panic = none := by
    simp [httpCalls, registerAll, withHandler, httpRegister, mixedServices, nilRegistration,
      namedRegistration, testHandler, GoAny.isNil, httprpc.sample, reflect.Indirect,
      reflect.ValueOf, reflect.Value.Type]
  ⟨ht, hh,
    ((@registration_errors_accumulated (List String) (List String) rpc.sample httprpc.sample
      mixedServices).1 ht).1,
    ((@registration_errors_accumulated (List String) (List String) rpc.sample httprpc.sample
      mixedServices).1 ht).2.2,
    ((@registration_errors_accumulated (List String) (List String) rpc.sample httprpc.sample
      mixedServices).2 hh).2.2⟩

theorem withHandler_idem (services : List (Option ServiceRegistration)) :
    withHandler (withHandler services) = withHandler services := by
  simp [withHandler, List.filter_filter]

/-- C5, as stated, fails: on tcp a list holding one registration without
handler is accepted and yields a service with nothing registered, whereas the
same list with that registration removed is empty and is rejected. -/
theorem nil_handler_list_accepted :
    (NewRpcService rpc.sample httprpc.sample "tcp" [nilRegistration]
      = .ok { (RpcService.zero : RpcService (List String) (List String)) with
          tcpServer := some [], network := "tcp" }) ∧
    (NewRpcService rpc.sample httprpc.sample "tcp" (withHandler [nilRegistration])
      = .error (.errorf "services is empty" [])) ∧
    NewRpcService rpc.sample httprpc.sample "tcp" [nilRegistration]
      ≠ NewRpcService rpc.sample httprpc.sample "tcp" (withHandler [nilRegistration]) := by
  have h1 : NewRpcService rpc.sample httprpc.sample "tcp" [nilRegistration]
      = .ok { (RpcService.zero : RpcService (List String) (List String)) with
          tcpServer := some [], network := "tcp" } := by
    simp [NewRpcService, newTcpServer, lo.ForEach, newTcpServer.body, nilRegistration,
      GoAny.isNil, rpc.sample, RpcService.zero]
  have h2 : NewRpcService rpc.sample httprpc.sample "tcp" (withHandler [nilRegistration])
      = .error (.errorf "services is empty" []) := by
    simp [NewRpcService, withHandler, nilRegistration, GoAny.isNil]
  refine ⟨h1, h2, ?_⟩
  rw [h1, h2]
  simp

/-- C5, amended: for network "tcp" or "http" and a registration list that is
empty or holds at least one registration with a handler, `NewRpcService` has
the same outcome (same error, or same service with the same dispatcher) on the
list and on the list without its nil-handler registrations. -/
theorem nil_handlers_skipped {σ η : Type} (tcp : rpc.Ops σ) (http : httprpc.Ops η)
    (network : String) (services : List (Option ServiceRegistration))
    (hnet : network = "tcp" ∨ network = "http")
    (hsome : services = [] ∨ withHandler services ≠ []) :
    NewRpcService tcp http network services
      = NewRpcService tcp http network (withHandler services) := by
  rcases hsome with h | h
  · subst h
    rfl
  · have hs : services ≠ [] := by
      intro h0
      subst h0
      exact h rfl
    have _ := hnet
    unfold NewRpcService
    simp only [List.length_eq_zero, hs, h, if_false]
    rw [newTcpServer_closed, newTcpServer_closed, newHttpServer_closed, newHttpServer_closed]
    unfold tcpCalls httpCalls
    rw [withHandler_idem]

theorem nil_handlers_skipped_witness :
    ("tcp" = "tcp" ∨ "tcp" = "http") ∧
    (nilRegistration :: testServices = [] ∨ withHandler (nilRegistration :: testServices) ≠ []) ∧
    NewRpcService rpc.sample httprpc.sample "tcp" (nilRegistration :: testServices)
      = NewRpcService rpc.sample httprpc.sample "tcp"
          (withHandler (nilRegistration :: testServices)) :=
  ⟨Or.inl rfl,
    Or.inr (by simp [withHandler, nilRegistration, testServices, testHandler, GoAny.isNil]),
    nil_handlers_skipped rpc.sample httprpc.sample "tcp" (nilRegistration :: testServices)
      (Or.inl rfl)
      (Or.inr (by simp [withHandler, nilRegistration, testServices, testHandler, GoAny.isNil]))⟩

theorem ConfigCall.run_fixed {σ η : Type} (s : RpcService σ η) (c : ConfigCall) :
    (c.run s).network = s.network ∧ (c.run s).tcpServer = s.tcpServer ∧
    (c.run s).httpServer = s.httpServer ∧
    (c.run s).httpServerHandler = s.httpServerHandler := by
  cases c with
  | WithServerPort port =>
    simp only [ConfigCall.run, RpcService.WithServerPort]
    split <;> simp
  | WithServerListener l =>
    cases l <;> simp [ConfigCall.run, RpcService.WithServerListener]
  | WithTcpRPCCodec codec =>
    simp only [ConfigCall.run, RpcService.WithTcpRPCCodec]
    split <;> simp
  | WithHttpRPCPath path =>
    simp only [ConfigCall.run, RpcService.WithHttpRPCPath]
    split <;> simp

theorem configure_fixed {σ η : Type} (s : RpcService σ η) (calls : List ConfigCall) :
    (configure s calls).network = s.network ∧ (configure s calls).tcpServer = s.tcpServer ∧
    (configure s calls).httpServer = s.httpServer ∧
    (configure s calls).httpServerHandler = s.httpServerHandler := by
  induction calls generalizing s with
  | nil => simp [configure]
  | cons c cs ih =>
    have h1 := ConfigCall.run_fixed s c
    have h2 := ih (c.run s)
    simp only [configure, List.foldl_cons] at h2 ⊢
    refine ⟨h2.1.trans h1.1, h2.2.1.trans h1.2.1, h2.2.2.1.trans h1.2.2.1,
      h2.2.2.2.trans h1.2.2.2⟩

theorem NewRpcService_ok_fields {σ η : Type} (tcp : rpc.Ops σ) (http : httprpc.Ops η)
    (network : String) (services : List (Option ServiceRegistration)) (srv : RpcService σ η)
    (h : NewRpcService tcp http network services = .ok srv) :
    srv.network = network ∧ srv.tcpClientCodec = "" ∧ srv.listener = none ∧
    srv.pathAddr = "" ∧ srv.serverConn = none ∧
    ((network = "tcp" ∧ srv.tcpServer.isSome = true ∧ srv.httpServer = none ∧
        srv.httpServerHandler = none) ∨
     (network = "http" ∧ srv.tcpServer = none ∧ srv.httpServer.isSome = true ∧
        srv.httpServerHandler.isSome = true)) := by
  unfold NewRpcService at h
  by_cases hs : services.length = 0
  · simp [hs] at h
  · by_cases ht : network = "tcp"
    · rw [if_neg hs, if_pos ht, newTcpServer_closed] at h
      cases hp : (tcpCalls tcp services).panic with
      | some msg =>
        rw [hp] at h
        simp at h
      | none =>
        rw [hp] at h
        by_cases he : (tcpCalls tcp services).results.filterMap id = []
        · simp only [if_pos he, Built.ok.injEq] at h
          subst h
          simp [RpcService.zero, ht]
        · simp only [if_neg he] at h
          cases h
    · by_cases hh : network = "http"
      · rw [if_neg hs, if_neg ht, if_pos hh, newHttpServer_closed] at h
        cases hp : (httpCalls http services).panic with
        | some msg =>
          rw [hp] at h
          simp at h
        | none =>
          rw [hp] at h
          by_cases he : (httpCalls http services).results.filterMap id = []
          · simp only [if_pos he, Built.ok.injEq] at h
            subst h
            simp [RpcService.zero, hh]
          · simp only [if_neg he] at h
            cases h
      · rw [if_neg hs, if_neg ht, if_neg hh] at h
        cases h

theorem StartServer_cases {σ η : Type} (env : ServerEnv) (s : RpcService σ η) :
    (s.listener = none ∧ ∃ port msg, defaultListenTCP env port = .error msg ∧
      (s.StartServer env).serving = none ∧ (s.StartServer env).result = .err (.ext msg)) ∨
    (s.tcpServer.isSome = true ∧ (s.StartServer env).serving = some (.tcp s.tcpCodec) ∧
      (s.StartServer env).result = .ok) ∨
    (s.tcpServer.isSome = false ∧ s.httpServer.isSome = true ∧
      s.httpServerHandler.isSome = true ∧
      (∃ path, (s.StartServer env).serving = some (.http path)) ∧
      (s.StartServer env).result = .ok) ∨
    (s.tcpServer.isSome = false ∧
      ¬(s.httpServer.isSome = true ∧ s.httpServerHandler.isSome = true) ∧
      (s.StartServer env).serving = none ∧
      (s.StartServer env).result = .err (.errorf "not support" [])) := by
  have key : ∀ t : RpcService σ η, t.tcpServer = s.tcpServer → t.httpServer = s.httpServer →
      t.httpServerHandler = s.httpServerHandler → t.tcpClientCodec = s.tcpClientCodec →
      (s.StartServer env) =
        (if t.tcpServer.isSome then ⟨t, some (.tcp t.tcpCodec), .ok⟩
         else if t.httpServer.isSome ∧ t.httpServerHandler.isSome then
           ⟨t, some (.http (if t.pathAddr = "" then "/" ++ env.uuid else t.pathAddr)), .ok⟩
         else ⟨t, none, .err (.errorf "not support" [])⟩) →
      (s.tcpServer.isSome = true ∧ (s.StartServer env).serving = some (.tcp s.tcpCodec) ∧
        (s.StartServer env).result = .ok) ∨
      (s.tcpServer.isSome = false ∧ s.httpServer.isSome = true ∧
        s.httpServerHandler.isSome = true ∧
        (∃ path, (s.StartServer env).serving = some (.http path)) ∧
        (s.StartServer env).result = .ok) ∨
      (s.tcpServer.isSome = false ∧
        ¬(s.httpServer.isSome = true ∧ s.httpServerHandler.isSome = true) ∧
        (s.StartServer env).serving = none ∧
        (s.StartServer env).result = .err (.errorf "not support" [])) := by
    intro t h1 h2 h3 h4 heq
    rw [heq, h1, h2, h3]
    by_cases ht : s.tcpServer.isSome = true
    · left
      simp [ht, RpcService.tcpCodec, h4]
    · right
      by_cases hh : s.httpServer.isSome = true ∧ s.httpServerHandler.isSome = true
      · left
        simp only [Bool.not_eq_true] at ht
        simp [ht, hh]
      · right
        simp only [Bool.not_eq_true] at ht
        refine ⟨ht, hh, ?_, ?_⟩ <;> simp [ht, hh]
  cases hl : s.listener with
  | some l =>
    right
    apply key s rfl rfl rfl rfl
    simp [RpcService.StartServer, hl]
  | none =>
    cases hb : defaultListenTCP env
        (match s.serverConn with
          | some c => env.convInt c.Port
          | none => 0) with
    | error msg =>
      left
      refine ⟨rfl, _, msg, hb, ?_, ?_⟩ <;> simp [RpcService.StartServer, hl, hb]
    | ok lp =>
      right
      apply key { s with listener := some lp.1 } rfl rfl rfl rfl
      simp [RpcService.StartServer, hl, hb]

theorem testTcpService_built :
    NewRpcService rpc.sample httprpc.sample "tcp" testServices = .ok testTcpService := by
  simp [NewRpcService, newTcpServer, lo.ForEach, newTcpServer.body, testServices,
    testHandler, GoAny.isNil, rpc.sample, reflect.Indirect, reflect.ValueOf,
    reflect.Value.Type, RpcService.zero, testTcpService]

/-- C7, as stated, fails: the tcp service of the tests, with its port set and
no listener supplied, on a host where the port is taken: `StartServer` returns
the bind error and takes neither path. -/
theorem StartServer_bind_error_takes_no_path :
    NewRpcService rpc.sample httprpc.sample "tcp" testServices = .ok testTcpService ∧
    ((testTcpService.WithServerPort 1234).StartServer ServerEnv.busy).serving = none ∧
    ((testTcpService.WithServerPort 1234).StartServer ServerEnv.busy).result
      = .err (.ext "bind: address already in use") := by
  refine ⟨testTcpService_built, ?_, ?_⟩
  · simp [RpcService.StartServer, RpcService.WithServerPort, testTcpService,
      RpcService.zero, defaultListenTCP, ServerEnv.busy]
  · simp [RpcService.StartServer, RpcService.WithServerPort, testTcpService,
      RpcService.zero, defaultListenTCP, ServerEnv.busy]

/-- C7, amended: a service returned without error by `NewRpcService`, after
any sequence of configuration calls, keeps its network and has exactly one
dispatcher set, the one named by the network (tcp dispatcher iff "tcp", http
dispatcher with its handler iff "http"); `StartServer` on it never returns the
"not support" error; it returns nil unless no listener was supplied and
binding the default listener fails, in which case it returns the bind error;
and whenever it returns nil it has taken the path matching the network. -/
theorem one_transport_path {σ η : Type} (tcp : rpc.Ops σ) (http : httprpc.Ops η)
    (network : String) (services : List (Option ServiceRegistration)) (srv : RpcService σ η)
    (calls : List ConfigCall) (env : ServerEnv)
    (h : NewRpcService tcp http network services = .ok srv) :
    (configure srv calls).network = network ∧
    ((configure srv calls).tcpServer.isSome = true ↔ network = "tcp") ∧
    ((configure srv calls).httpServer.isSome = true ∧
      (configure srv calls).httpServerHandler.isSome = true ↔ network = "http") ∧
    ((configure srv calls).tcpServer.isSome = true ↔
      (configure srv calls).httpServer.isSome = false) ∧
    ((configure srv calls).StartServer env).result ≠ .err (.errorf "not support" []) ∧
    (((configure srv calls).StartServer env).result = .ok ∨
      ((configure srv calls).listener = none ∧
        ∃ port msg, defaultListenTCP env port = .error msg ∧
          ((configure srv calls).StartServer env).result = .err (.ext msg))) ∧
    (((configure srv calls).StartServer env).result = .ok →
      (network = "tcp" ∧ ((configure srv calls).StartServer env).serving
          = some (.tcp (configure srv calls).tcpCodec)) ∨
      (network = "http" ∧
        ∃ path, ((configure srv calls).StartServer env).serving = some (.http path))) := by
  obtain ⟨hn, -, -, -, -, hdisp⟩ := NewRpcService_ok_fields tcp http network services srv h
  obtain ⟨c1, c2, c3, c4⟩ := configure_fixed srv calls
  have hne : ("http" : String) ≠ "tcp" := by decide
  have hcases := StartServer_cases env (configure srv calls)
  rw [c2, c3, c4] at hcases
  rw [c1, c2, c3, c4]
  rcases hdisp with ⟨hnet, ht, hh, hhh⟩ | ⟨hnet, ht, hh, hhh⟩
  · subst hnet
    have hh2 : srv.httpServer.isSome = false := by simp [hh]
    refine ⟨hn, by simp [ht], by simp [hh, hne.symm], by simp [ht, hh], ?_, ?_, ?_⟩
    · rcases hcases with ⟨-, p, m, -, -, hr⟩ | ⟨-, -, hr⟩ | ⟨hf, -⟩ | ⟨hf, -⟩
      · rw [hr]; simp
      · rw [hr]; simp
      · rw [ht] at hf; cases hf
      · rw [ht] at hf; cases hf
    · rcases hcases with ⟨hl, p, m, hb, -, hr⟩ | ⟨-, -, hr⟩ | ⟨hf, -⟩ | ⟨hf, -⟩
      · exact Or.inr ⟨hl, p, m, hb, hr⟩
      · exact Or.inl hr
      · rw [ht] at hf; cases hf
      · rw [ht] at hf; cases hf
    · intro hok
      rcases hcases with ⟨-, p, m, -, -, hr⟩ | ⟨-, hs, -⟩ | ⟨hf, -⟩ | ⟨hf, -⟩
      · rw [hr] at hok; cases hok
      · exact Or.inl ⟨rfl, hs⟩
      · rw [ht] at hf; cases hf
      · rw [ht] at hf; cases hf
  · subst hnet
    have ht2 : srv.tcpServer.isSome = false := by simp [ht]
    refine ⟨hn, by simp [ht, hne], by simp [hh, hhh], by simp [ht, hh], ?_, ?_, ?_⟩
    · rcases hcases with ⟨-, p, m, -, -, hr⟩ | ⟨-, -, hr⟩ | ⟨-, -, -, -, hr⟩ | ⟨-, hf, -⟩
      · rw [hr]; simp
      · rw [hr]; simp
      · rw [hr]; simp
      · exact absurd ⟨hh, hhh⟩ hf
    · rcases hcases with ⟨hl, p, m, hb, -, hr⟩ | ⟨-, -, hr⟩ | ⟨-, -, -, -, hr⟩ | ⟨-, hf, -⟩
      · exact Or.inr ⟨hl, p, m, hb, hr⟩
      · exact Or.inl hr
      · exact Or.inl hr
      · exact absurd ⟨hh, hhh⟩ hf
    · intro hok
      rcases hcases with ⟨-, p, m, -, -, hr⟩ | ⟨hf, -⟩ | ⟨-, -, -, hs, -⟩ | ⟨-, hf, -⟩
      · rw [hr] at hok; cases hok
      · rw [ht2] at hf; cases hf
      · exact Or.inr ⟨rfl, hs⟩
      · exact absurd ⟨hh, hhh⟩ hf

theorem one_transport_path_witness :
    NewRpcService rpc.sample httprpc.sample "tcp" testServices = .ok testTcpService ∧
    ((configure testTcpService [.WithServerPort 1234, .WithTcpRPCCodec "msgpack"]).tcpServer.isSome
      = true ↔ "tcp" = "tcp") ∧
    ((configure testTcpService [.WithServerPort 1234, .WithTcpRPCCodec "msgpack"]).StartServer
      ServerEnv.free).result ≠ .err (.errorf "not support" []) :=
  ⟨testTcpService_built,
    (one_transport_path rpc.sample httprpc.sample "tcp" testServices testTcpService
      [.WithServerPort 1234, .WithTcpRPCCodec "msgpack"] ServerEnv.free
      testTcpService_built).2.1,
    (one_transport_path rpc.sample httprpc.sample "tcp" testServices testTcpService
      [.WithServerPort 1234, .WithTcpRPCCodec "msgpack"] ServerEnv.free
      testTcpService_built).2.2.2.2.1⟩

/-- C6: for every codec identifier `c`, a fresh client and a fresh tcp service,
each configured with `WithTcpRPCCodec c`, select the same codec: msgpack if and
only if `c` is "msgpack", the jsonrpc codec for every other identifier (the
empty one included). The client opens its connection and issues its call with
that codec; `StartServer` on the service, once it has a listener (supplied, or
bound by default), starts the tcp accept loop serving with that codec and
returns nil, and without a listener it returns the bind error. -/
theorem codec_selection {σ η : Type} (tcp : rpc.Ops σ) (http : httprpc.Ops η) (c : String)
    (network : String) (profile : Option conn.Connect)
    (services : List (Option ServiceRegistration)) (srv : RpcService σ η)
    (h : NewRpcService tcp http "tcp" services = .ok srv) :
    ((NewRpcClient network profile).1.WithTcpRPCCodec c).tcpCodec
      = (srv.WithTcpRPCCodec c).tcpCodec ∧
    (((NewRpcClient network profile).1.WithTcpRPCCodec c).tcpCodec = .msgpack ↔
      c = "msgpack") ∧
    (((NewRpcClient network profile).1.WithTcpRPCCodec c).tcpCodec = .jsonrpc ↔
      c ≠ "msgpack") ∧
    (∀ env serviceMethod args reply, resolve profile "" ≠ "" →
      (((NewRpcClient network profile).1.WithTcpRPCCodec c).execTcpClient env serviceMethod
        args reply).events.head?
        = some (if c = "msgpack" then .dial "tcp" (resolve profile "")
                else .jsonrpcDial "tcp" (resolve profile ""))) ∧
    (∀ env serviceMethod args reply cd m a r,
      NetEvent.call cd m a r ∈
        (((NewRpcClient network profile).1.WithTcpRPCCodec c).execTcpClient env serviceMethod
          args reply).events →
      cd = if c = "msgpack" then .msgpack else .jsonrpc) ∧
    (∀ env, ((srv.WithTcpRPCCodec c).StartServer env).result = .ok →
      ((srv.WithTcpRPCCodec c).StartServer env).serving
        = some (.tcp (if c = "msgpack" then .msgpack else .jsonrpc))) ∧
    (∀ env,
      (∃ msg, defaultListenTCP env 0 = .error msg ∧
        ((srv.WithTcpRPCCodec c).StartServer env).serving = none ∧
        ((srv.WithTcpRPCCodec c).StartServer env).result = .err (.ext msg)) ∨
      (∃ lp, defaultListenTCP env 0 = .ok lp ∧
        ((srv.WithTcpRPCCodec c).StartServer env).serving
          = some (.tcp (if c = "msgpack" then .msgpack else .jsonrpc)) ∧
        ((srv.WithTcpRPCCodec c).StartServer env).result = .ok)) ∧
    (∀ env l,
      (((srv.WithTcpRPCCodec c).WithServerListener (some l)).StartServer env).serving
        = some (.tcp (if c = "msgpack" then .msgpack else .jsonrpc)) ∧
      (((srv.WithTcpRPCCodec c).WithServerListener (some l)).StartServer env).result
        = .ok) := by
  obtain ⟨-, hcodec, hlis, -, hconn0, hdisp⟩ :=
    NewRpcService_ok_fields tcp http "tcp" services srv h
  have hne : ("" : String) ≠ "msgpack" := by decide
  have ht : srv.tcpServer.isSome = true := by
    rcases hdisp with ⟨-, ht, -⟩ | ⟨hnet, -⟩
    · exact ht
    · exact absurd hnet (by decide)
  have hcl : ((NewRpcClient network profile).1.WithTcpRPCCodec c).tcpCodec
      = if c = "msgpack" then .msgpack else .jsonrpc := by
    unfold RpcClient.tcpCodec RpcClient.WithTcpRPCCodec NewRpcClient
    by_cases h0 : c = ""
    · subst h0
      simp [hne]
    · simp [h0]
  have hsv : (srv.WithTcpRPCCodec c).tcpCodec
      = if c = "msgpack" then .msgpack else .jsonrpc := by
    unfold RpcService.tcpCodec RpcService.WithTcpRPCCodec
    by_cases h0 : c = ""
    · subst h0
      simp [hne, hcodec]
    · simp [h0]
  have hfix : (srv.WithTcpRPCCodec c).tcpServer = srv.tcpServer ∧
      (srv.WithTcpRPCCodec c).listener = srv.listener ∧
      (srv.WithTcpRPCCodec c).serverConn = srv.serverConn := by
    unfold RpcService.WithTcpRPCCodec
    split <;> exact ⟨rfl, rfl, rfl⟩
  have hconn : ((NewRpcClient network profile).1.WithTcpRPCCodec c).serverConn = profile := by
    unfold RpcClient.WithTcpRPCCodec NewRpcClient
    split <;> rfl
  have haddr0 : ((NewRpcClient network profile).1.WithTcpRPCCodec c).serverAddr = "" := by
    unfold RpcClient.WithTcpRPCCodec NewRpcClient
    split <;> rfl
  have hr := resolve_code ((NewRpcClient network profile).1.WithTcpRPCCodec c)
  rw [hconn, haddr0] at hr
  refine ⟨by rw [hcl, hsv], ?_, ?_, ?_, ?_, ?_, ?_, ?_⟩
  · rw [hcl]
    by_cases hm : c = "msgpack" <;> simp [hm]
  · rw [hcl]
    by_cases hm : c = "msgpack" <;> simp [hm]
  · intro env serviceMethod args reply haddr
    simp only [RpcClient.execTcpClient, hconn, haddr0, hr, if_neg haddr, hcl]
    by_cases hm : c = "msgpack"
    · simp only [hm, if_true]
      cases env.dial "tcp" (resolve profile "") with
      | some e => simp
      | none =>
        simp only []
        rcases hcall : env.call .msgpack (resolve profile "") serviceMethod
          args reply with ⟨r2, _ | e⟩ <;> simp
    · simp only [hm, if_false]
      cases env.jsonrpcDial "tcp" (resolve profile "") with
      | some e => simp
      | none =>
        simp only []
        rcases hcall : env.call .jsonrpc (resolve profile "") serviceMethod
          args reply with ⟨r2, _ | e⟩ <;> simp
  · intro env serviceMethod args reply cd m a r
    simp only [RpcClient.execTcpClient, hconn, haddr0, hr, hcl]
    split
    · simp
    · by_cases hm : c = "msgpack"
      · simp only [hm, if_true]
        cases env.dial "tcp" (resolve profile "") with
        | some e => simp
        | none =>
          simp only []
          rcases hcall : env.call .msgpack (resolve profile "") serviceMethod
            args reply with ⟨r2, _ | e⟩ <;> simp <;> intro h1 _ _ _ <;> exact h1
      · simp only [hm, if_false]
        cases env.jsonrpcDial "tcp" (resolve profile "") with
        | some e => simp
        | none =>
          simp only []
          rcases hcall : env.call .jsonrpc (resolve profile "") serviceMethod
            args reply with ⟨r2, _ | e⟩ <;> simp <;> intro h1 _ _ _ <;> exact h1
  · intro env hok
    rcases StartServer_cases env (srv.WithTcpRPCCodec c) with
      ⟨-, p, m, -, -, hr⟩ | ⟨-, hs, -⟩ | ⟨hf, -⟩ | ⟨hf, -⟩
    · rw [hr] at hok; cases hok
    · rw [hs, hsv]
    · rw [hfix.1, ht] at hf; cases hf
    · rw [hfix.1, ht] at hf; cases hf
  · intro env
    have hl : (srv.WithTcpRPCCodec c).listener = none := by rw [hfix.2.1, hlis]
    have hc : (srv.WithTcpRPCCodec c).serverConn = none := by rw [hfix.2.2, hconn0]
    have hts : (srv.WithTcpRPCCodec c).tcpServer.isSome = true := by rw [hfix.1, ht]
    cases hb : defaultListenTCP env 0 with
    | error msg =>
      left
      refine ⟨msg, rfl, ?_, ?_⟩ <;> simp [RpcService.StartServer, hl, hc, hb]
    | ok lp =>
      right
      refine ⟨lp, rfl, ?_, ?_⟩
      · simp [RpcService.StartServer, hl, hc, hb, hts]
        simpa [RpcService.tcpCodec] using hsv
      · simp [RpcService.StartServer, hl, hc, hb, hts]
  · intro env l
    have hts : ((srv.WithTcpRPCCodec c).WithServerListener (some l)).tcpServer.isSome
        = true := by
      simp [RpcService.WithServerListener, hfix.1, ht]
    have hcd : ((srv.WithTcpRPCCodec c).WithServerListener (some l)).tcpCodec
        = if c = "msgpack" then .msgpack else .jsonrpc := by
      rw [← hsv]
      simp [RpcService.WithServerListener, RpcService.tcpCodec]
    constructor
    · simp [RpcService.StartServer, RpcService.WithServerListener, hfix.1, ht]
      simpa [RpcService.WithServerListener, RpcService.tcpCodec] using hcd
    · simp [RpcService.StartServer, RpcService.WithServerListener, hfix.1, ht]

theorem codec_selection_witness :
    NewRpcService rpc.sample httprpc.sample "tcp" testServices = .ok testTcpService ∧
    ((NewRpcClient "tcp" (some { Host := "127.0.0.1", Port := "1234" })).1.WithTcpRPCCodec
        "msgpack").tcpCodec
      = (testTcpService.WithTcpRPCCodec "msgpack").tcpCodec ∧
    (((testTcpService.WithTcpRPCCodec "msgpack").WithServerListener
        (some testListener)).StartServer ServerEnv.busy).serving
      = some (.tcp (if "msgpack" = "msgpack" then .msgpack else .jsonrpc)) ∧
    (((testTcpService.WithTcpRPCCodec "msgpack").WithServerListener
        (some testListener)).StartServer ServerEnv.busy).result = .ok ∧
    resolve (some { Host := "127.0.0.1", Port := "1234" }) "" ≠ "" ∧
    (((NewRpcClient "tcp" (some { Host := "127.0.0.1", Port := "1234" })).1.WithTcpRPCCodec
        "msgpack").execTcpClient Net.quiet "Arith.Add" testArgs testIntReply).events.head?
      = some (if "msgpack" = "msgpack"
          then .dial "tcp" (resolve (some { Host := "127.0.0.1", Port := "1234" }) "")
          else .jsonrpcDial "tcp" (resolve (some { Host := "127.0.0.1", Port := "1234" }) "")) ∧
    ((∃ msg, defaultListenTCP ServerEnv.free 0 = .error msg ∧
        ((testTcpService.WithTcpRPCCodec "").StartServer ServerEnv.free).serving = none ∧
        ((testTcpService.WithTcpRPCCodec "").StartServer ServerEnv.free).result
          = .err (.ext msg)) ∨
      (∃ lp, defaultListenTCP ServerEnv.free 0 = .ok lp ∧
        ((testTcpService.WithTcpRPCCodec "").StartServer ServerEnv.free).serving
          = some (.tcp (if "" = "msgpack" then .msgpack else .jsonrpc)) ∧
        ((testTcpService.WithTcpRPCCodec "").StartServer ServerEnv.free).result = .ok)) :=
  ⟨testTcpService_built,
    (codec_selection rpc.sample httprpc.sample "msgpack" "tcp"
      (some { Host := "127.0.0.1", Port := "1234" }) testServices testTcpService
      testTcpService_built).1,
    ((codec_selection rpc.sample httprpc.sample "msgpack" "tcp"
      (some { Host := "127.0.0.1", Port := "1234" }) testServices testTcpService
      testTcpService_built).2.2.2.2.2.2.2 ServerEnv.busy testListener).1,
    ((codec_selection rpc.sample httprpc.sample "msgpack" "tcp"
      (some { Host := "127.0.0.1", Port := "1234" }) testServices testTcpService
      testTcpService_built).2.2.2.2.2.2.2 ServerEnv.busy testListener).2,
    by simp [resolve, net.JoinHostPort_ne_empty],
    (codec_selection rpc.sample httprpc.sample "msgpack" "tcp"
      (some { Host := "127.0.0.1", Port := "1234" }) testServices testTcpService
      testTcpService_built).2.2.2.1 Net.quiet "Arith.Add" testArgs testIntReply
      (by simp [resolve, net.JoinHostPort_ne_empty]),
    (codec_selection rpc.sample httprpc.sample "" "tcp"
      (some { Host := "127.0.0.1", Port := "1234" }) testServices testTcpService
      testTcpService_built).2.2.2.2.2.2.1 ServerEnv.free⟩

theorem JsonAny.isNil_eq_false (v : JsonAny) : v.isNil = false ↔ v ≠ .null := by
  cases v <;> simp [JsonAny.isNil]

/-- C8: once the post has succeeded and the response body has been parsed
into an envelope, `execHttpClient` returns the error built from the envelope's
error value, with the reply slot untouched, exactly when that value is
non-null; otherwise the reply slot and the returned error are those of
`conv.Unmarshal` applied to the envelope's result field and the reply. -/
theorem http_response_handling (env : Net) (s : RpcClient) (serviceMethod : String)
    (args reply : GoAny) (body : String) (rpcResp : jSONRPCResponse)
    (haddr : resolve s.serverConn s.serverAddr ≠ "") (hpath : s.pathAddr ≠ "")
    (hpost : env.post ("http://" ++ resolve s.serverConn s.serverAddr ++ s.pathAddr)
      "application/json"
      { jsonrpc := "2.0", method := serviceMethod, params := [args], id := env.uuid }
      = .ok body)
    (hdec : env.decode body = .ok rpcResp) :
    (rpcResp.Error ≠ .null →
      (s.execHttpClient env serviceMethod args reply).result
        = .err (.errorf "调用失败: %v\n" [rpcResp.Error]) ∧
      (s.execHttpClient env serviceMethod args reply).reply = reply) ∧
    (rpcResp.Error = .null →
      (s.execHttpClient env serviceMethod args reply).reply
        = (env.unmarshal rpcResp.Result reply).1 ∧
      (s.execHttpClient env serviceMethod args reply).result
        = (match (env.unmarshal rpcResp.Result reply).2 with
           | none => .ok
           | some e => .err (.ext e))) ∧
    ((∃ format v, (s.execHttpClient env serviceMethod args reply).result
        = .err (.errorf format v)) ↔ rpcResp.Error ≠ .null) := by
  have hr := resolve_code s
  have hrun : s.execHttpClient env serviceMethod args reply =
      if rpcResp.Error.isNil = false then
        ⟨[.post ("http://" ++ resolve s.serverConn s.serverAddr ++ s.pathAddr)
            "application/json"
            { jsonrpc := "2.0", method := serviceMethod, params := [args], id := env.uuid },
          .closeBody], reply, .err (.errorf "调用失败: %v\n" [rpcResp.Error])⟩
      else
        match env.unmarshal rpcResp.Result reply with
        | (reply2, some e) =>
          ⟨[.post ("http://" ++ resolve s.serverConn s.serverAddr ++ s.pathAddr)
              "application/json"
              { jsonrpc := "2.0", method := serviceMethod, params := [args], id := env.uuid },
            .closeBody], reply2, .err (.ext e)⟩
        | (reply2, none) =>
          ⟨[.post ("http://" ++ resolve s.serverConn s.serverAddr ++ s.pathAddr)
              "application/json"
              { jsonrpc := "2.0", method := serviceMethod, params := [args], id := env.uuid },
            .closeBody], reply2, .ok⟩ := by
    simp only [RpcClient.execHttpClient, hr, haddr, hpath, or_self, if_false, hpost, hdec]
  rw [hrun]
  by_cases hnull : rpcResp.Error = .null
  · have hnil : rpcResp.Error.isNil = true := by rw [hnull]; rfl
    have hfalse : ¬ rpcResp.Error.isNil = false := by simp [hnil]
    rw [if_neg hfalse]
    refine ⟨fun hne => absurd hnull hne, fun _ => ?_, ?_⟩
    · rcases env.unmarshal rpcResp.Result reply with ⟨r2, _ | e⟩ <;> simp
    · constructor
      · rintro ⟨format, v, hv⟩
        exfalso
        revert hv
        rcases env.unmarshal rpcResp.Result reply with ⟨r2, _ | e⟩ <;> simp
      · intro hne
        exact absurd hnull hne
  · have hnil : rpcResp.Error.isNil = false := (JsonAny.isNil_eq_false _).2 hnull
    rw [if_pos hnil]
    exact ⟨fun _ => ⟨rfl, rfl⟩, fun h0 => absurd h0 hnull, fun _ => hnull, fun _ => ⟨_, _, rfl⟩⟩

theorem http_response_handling_witness :
    resolve testHttpClient.serverConn testHttpClient.serverAddr ≠ "" ∧
    testHttpClient.pathAddr ≠ "" ∧
    ((JsonAny.string "rpc: can not find service Arith.HttpAdd") ≠ .null →
      (testHttpClient.execHttpClient
          (Net.answering (.string "rpc: can not find service Arith.HttpAdd"))
          "Arith.HttpAdd" testArgs testResultReply).result
        = .err (.errorf "调用失败: %v\n" [.string "rpc: can not find service Arith.HttpAdd"]) ∧
      (testHttpClient.execHttpClient
          (Net.answering (.string "rpc: can not find service Arith.HttpAdd"))
          "Arith.HttpAdd" testArgs testResultReply).reply = testResultReply) :=
  ⟨by simp [resolve, testHttpClient, NewRpcClient, RpcClient.WithHttpRPCPath,
      net.JoinHostPort_ne_empty],
    by simp [testHttpClient, NewRpcClient, RpcClient.WithHttpRPCPath],
    (http_response_handling (Net.answering (.string "rpc: can not find service Arith.HttpAdd"))
      testHttpClient "Arith.HttpAdd" testArgs testResultReply "response"
      { JSONRPC := "2.0", Result := "null",
        Error := .string "rpc: can not find service Arith.HttpAdd", Id := "" }
      (by simp [resolve, testHttpClient, NewRpcClient, RpcClient.WithHttpRPCPath,
        net.JoinHostPort_ne_empty])
      (by simp [testHttpClient, NewRpcClient, RpcClient.WithHttpRPCPath])
      rfl rfl).1⟩

theorem cond.IsPointer_ptr (e : reflect.RType) (c : Option JsonAny) :
    cond.IsPointer (.dyn (.Ptr e) c) = true := rfl

theorem reflect.Indirect_ptr_some (e : reflect.RType) (c : JsonAny) :
    (reflect.Indirect (reflect.ValueOf (.dyn (.Ptr e) (some c)))).Type = some e := rfl

theorem reflect.Indirect_ptr_none (e : reflect.RType) :
    (reflect.Indirect (reflect.ValueOf (.dyn (.Ptr e) none))).Type = none := rfl

theorem Submit_tcp_shape (env : Net) (s : RpcClient) (serviceMethod : String)
    (args reply : GoAny) (h : s.network = "tcp") :
    (cond.IsPointer args = true → cond.IsPointer reply = true →
      s.Submit env serviceMethod args reply = s.execTcpClient env serviceMethod args reply) ∧
    (¬(cond.IsPointer args = true ∧ cond.IsPointer reply = true) →
      (s.Submit env serviceMethod args reply).events = [] ∧
      (s.Submit env serviceMethod args reply).reply = reply ∧
      ∃ msg, (s.Submit env serviceMethod args reply).result = .err (.errorf msg [])) := by
  constructor
  · intro ha hr
    simp [RpcClient.Submit, h, ha, hr]
  · intro hn
    by_cases ha : cond.IsPointer args = true
    · have hr : cond.IsPointer reply = false := by
        cases hr : cond.IsPointer reply
        · rfl
        · exact absurd ⟨ha, hr⟩ hn
      simp [RpcClient.Submit, h, ha, hr]
    · simp only [Bool.not_eq_true] at ha
      simp [RpcClient.Submit, h, ha]

theorem Submit_http_shape (env : Net) (s : RpcClient) (serviceMethod : String)
    (args reply : GoAny) (h : s.network = "http") :
    (¬(cond.IsPointer args = true ∧ cond.IsPointer reply = true) →
      (s.Submit env serviceMethod args reply).events = [] ∧
      (s.Submit env serviceMethod args reply).reply = reply ∧
      ∃ msg, (s.Submit env serviceMethod args reply).result = .err (.errorf msg [])) ∧
    (∀ ta ca tr cr, args = .dyn (.Ptr ta) (some ca) → reply = .dyn (.Ptr tr) (some cr) →
      (ta.Kind = .Struct ∧ tr.Kind = .Struct →
        s.Submit env serviceMethod args reply
          = s.execHttpClient env serviceMethod args reply) ∧
      (¬(ta.Kind = .Struct ∧ tr.Kind = .Struct) →
        (s.Submit env serviceMethod args reply).events = [] ∧
        (s.Submit env serviceMethod args reply).reply = reply ∧
        ∃ msg, (s.Submit env serviceMethod args reply).result = .err (.errorf msg []))) ∧
    (∀ ta, args = .dyn (.Ptr ta) none → cond.IsPointer reply = true →
      (s.Submit env serviceMethod args reply).events = [] ∧
      ∃ msg, (s.Submit env serviceMethod args reply).result = .panic msg) := by
  refine ⟨?_, ?_, ?_⟩
  · intro hn
    by_cases ha : cond.IsPointer args = true
    · have hr : cond.IsPointer reply = false := by
        cases hr : cond.IsPointer reply
        · rfl
        · exact absurd ⟨ha, hr⟩ hn
      simp [RpcClient.Submit, h, ha, hr]
    · simp only [Bool.not_eq_true] at ha
      simp [RpcClient.Submit, h, ha]
  · intro ta ca tr cr hargs hreply
    subst hargs hreply
    constructor
    · rintro ⟨h1, h2⟩
      simp [RpcClient.Submit, h, cond.IsPointer_ptr, reflect.Indirect_ptr_some, h1, h2]
    · intro hn
      by_cases h1 : ta.Kind = .Struct
      · have h2 : ¬ tr.Kind = .Struct := fun h2 => hn ⟨h1, h2⟩
        simp [RpcClient.Submit, h, cond.IsPointer_ptr, reflect.Indirect_ptr_some, h1, h2]
      · simp [RpcClient.Submit, h, cond.IsPointer_ptr, reflect.Indirect_ptr_some, h1]
  · intro ta hargs hr
    subst hargs
    simp [RpcClient.Submit, h, cond.IsPointer_ptr, reflect.Indirect_ptr_none, hr]

theorem Submit_other_network (env : Net) (s : RpcClient) (serviceMethod : String)
    (args reply : GoAny) (h1 : s.network ≠ "tcp") (h2 : s.network ≠ "http") :
    (s.Submit env serviceMethod args reply).events = [] ∧
    (s.Submit env serviceMethod args reply).result = .err (.errorf "not support" []) := by
  simp [RpcClient.Submit, h1, h2]

/-- C2 at a failing input: on "http", with `(*int)(nil)` as args (a pointer to
a primitive type) and `&Result` as reply, `Submit` makes no external call but
does not return an error: it panics in `reflect.Value.Type`. -/
theorem Submit_http_nil_int_pointer_panics :
    testHttpClient.network = "http" ∧
    (testHttpClient.Submit Net.quiet "Arith.HttpAdd" nilIntPointer testResultReply).events = [] ∧
    (testHttpClient.Submit Net.quiet "Arith.HttpAdd" nilIntPointer testResultReply).result
      = .panic "reflect: call of reflect.Value.Type on zero Value" := by
  simp [RpcClient.Submit, testHttpClient, NewRpcClient, RpcClient.WithHttpRPCPath,
    nilIntPointer, testResultReply, cond.IsPointer, reflect.ValueOf, reflect.Value.Kind,
    reflect.RType.Kind, reflect.Indirect, reflect.Value.Type]

/-- C10 at a failing input: on "http", `Submit` with the typed nil pointer
`(*Args)(nil)` as args, or as reply after valid args, neither returns an error
nor reaches the transport step: the struct-shape check panics. -/
theorem Submit_http_typed_nil_pointer_panics :
    (testHttpClient.Submit Net.quiet "Arith.HttpAdd" nilArgsPointer testResultReply).result
      = .panic "reflect: call of reflect.Value.Type on zero Value" ∧
    (testHttpClient.Submit Net.quiet "Arith.HttpAdd" testArgs nilArgsPointer).result
      = .panic "reflect: call of reflect.Value.Type on zero Value" ∧
    (testHttpClient.Submit Net.quiet "Arith.HttpAdd" GoAny.nil testResultReply).result
      = .err (.errorf "args is not struct pointer" []) := by
  simp [RpcClient.Submit, testHttpClient, NewRpcClient, RpcClient.WithHttpRPCPath,
    nilArgsPointer, testArgs, testResultReply, cond.IsPointer, reflect.ValueOf,
    reflect.Value.Kind, reflect.RType.Kind, reflect.Indirect, reflect.Value.Type]

theorem client_address_resolution_witness :
    resolve testTcpClient.serverConn testTcpClient.serverAddr ≠ "" ∧
    ((testTcpClient.execTcpClient Net.quiet "Arith.Add" testArgs testIntReply).events.head?
        = some (.dial "tcp" (resolve testTcpClient.serverConn testTcpClient.serverAddr)) ∨
      (testTcpClient.execTcpClient Net.quiet "Arith.Add" testArgs testIntReply).events.head?
        = some (.jsonrpcDial "tcp"
            (resolve testTcpClient.serverConn testTcpClient.serverAddr))) :=
  ⟨by simp [resolve, testTcpClient, NewRpcClient, net.JoinHostPort_ne_empty],
    (client_address_resolution Net.quiet testTcpClient "Arith.Add" testArgs
      testIntReply).2.2.2.2.1
      (by simp [resolve, testTcpClient, NewRpcClient, net.JoinHostPort_ne_empty])⟩

theorem NewRpcService_preconditions_witness :
    ("udp" : String) ≠ "tcp" ∧ ("udp" : String) ≠ "http" ∧
    (NewRpcService rpc.sample httprpc.sample "udp" testServices
        = .error (.errorf "services is empty" []) ∨
      NewRpcService rpc.sample httprpc.sample "udp" testServices
        = .error (.errorf "network is not tcp or http" [])) :=
  ⟨by decide, by decide,
    (NewRpcService_preconditions rpc.sample httprpc.sample "udp" testServices).2.1
      (by decide) (by decide)⟩

end Omniflow
